import Mathlib

/-
Shallow embedding of `src/chatbot-backend/main.py` (the FastAPI relay
service of the chatbot-demo repository) and verification of its
natural-language specification.

The program is a single-file HTTP relay: it exposes `GET /` (health check)
and `POST /chat`, which validates `{"user_message": <string>}`, issues one
outbound POST to `<OLLAMA_URL>/api/chat` via the `requests` library, and
translates the outcome into an HTTP response.

Modelling decisions:
- JSON documents are modelled by the inductive `JValue`.
- The process environment is a `List (String × String)`; `os.getenv`
  becomes `getenv` with an association-list lookup and a default.
- The upstream's behaviour on the single outbound call is an explicit
  parameter of type `Upstream`: either a transport-level failure
  (connection refused, unreachable, timeout — all surfaced by `requests`
  as a `RequestException`) or a response with a status code, a reason
  phrase and an already-parsed JSON body.
- Python exceptions relevant to the code's `except` clauses are the
  inductive `PyExc`; `PyExc.toStr` is Python's `str()` on them
  (Starlette's `HTTPException.__str__` is `f"{status_code}: {detail}"`,
  `str(KeyError(k))` is `repr(k)`, i.e. the key in quotes).
- `requests.Response.raise_for_status` raises for status codes in
  [400, 600); its message is `"<code> Client Error: <reason> for url: <url>"`
  for 4xx and `"<code> Server Error: <reason> for url: <url>"` for 5xx.
- Each handler returns, besides its HTTP response, the list of outbound
  HTTP requests it issued, so that "exactly one outbound call, no
  retries" is a statement about the model.
-/

namespace ChatbotDemo

/-- JSON values exchanged between the relay, its client and the upstream. -/
inductive JValue where
  | jnull : JValue
  | jbool (b : Bool) : JValue
  | jnum (n : Int) : JValue
  | jstr (s : String) : JValue
  | jarr (items : List JValue) : JValue
  | jobj (fields : List (String × JValue)) : JValue

/-- Python exceptions that can arise on the paths of `call_ollama` and
`chat_with_ai`: FastAPI/Starlette `HTTPException`, `KeyError` from dict
subscription, `TypeError` from subscripting a non-dict with a string key. -/
inductive PyExc where
  | httpExc (status : Nat) (detail : String) : PyExc
  | keyError (key : String) : PyExc
  | typeError (msg : String) : PyExc

/-- Python `str()` on a `PyExc`. Starlette's `HTTPException.__str__`
returns `f"{status_code}: {detail}"`; `str(KeyError(k))` is the repr of
the key (quoted); `str(TypeError(m))` is the message. -/
def PyExc.toStr : PyExc → String
  | .httpExc status detail => toString status ++ ": " ++ detail
  | .keyError key => "'" ++ key ++ "'"
  | .typeError msg => msg

/-- Python dict subscription `v[k]` with a string key: returns the value,
raises `KeyError` on a dict without the key, `TypeError` on non-dicts. -/
def JValue.getItem : JValue → String → Except PyExc JValue
  | .jobj fields, k =>
    match fields.lookup k with
    | some v => Except.ok v
    | none => Except.error (.keyError k)
  | .jstr _, _ => Except.error (.typeError "string indices must be integers")
  | .jarr _, _ => Except.error (.typeError "list indices must be integers or slices, not str")
  | .jnull, _ => Except.error (.typeError "NoneType object is not subscriptable")
  | .jbool _, _ => Except.error (.typeError "bool object is not subscriptable")
  | .jnum _, _ => Except.error (.typeError "int object is not subscriptable")

/-- The behaviour of the upstream (Ollama) on the one outbound call:
either the call fails at transport level (connection refused, unreachable,
timeout — a `requests.exceptions.RequestException` whose text is
`errText`), or a response arrives with a status code, reason phrase and
parsed JSON body. -/
inductive Upstream where
  | transportFailure (errText : String) : Upstream
  | response (status : Nat) (reason : String) (body : JValue) : Upstream

/-- An outbound HTTP request as issued by `requests.post(url, json=payload,
timeout=60)`. -/
structure HttpRequest where
  url : String
  jsonBody : JValue
  timeout : Nat

/-- An inbound HTTP response produced by a FastAPI handler. -/
structure Response where
  status : Nat
  body : JValue

/-- Model of `os.getenv(key, default)` over an environment association
list (after `load_dotenv()` has merged the `.env` file into it). -/
def getenv (env : List (String × String)) (key default : String) : String :=
  match env.lookup key with
  | some v => v
  | none => default

/-- Source: `OLLAMA_URL = os.getenv("OLLAMA_URL", "http://localhost:11434")`. -/
def OLLAMA_URL (env : List (String × String)) : String :=
  getenv env "OLLAMA_URL" "http://localhost:11434"

/-- Source: `OLLAMA_MODEL = os.getenv("OLLAMA_MODEL", "qwen2.5")`. -/
def OLLAMA_MODEL (env : List (String × String)) : String :=
  getenv env "OLLAMA_MODEL" "qwen2.5"

/-- Source: the CORS allow-list `origins` in main.py. -/
def origins : List String :=
  ["http://localhost:5173", "http://localhost:3000"]

/-- Source: `allow_credentials=True` in the CORSMiddleware configuration. -/
def allow_credentials : Bool := true

/-- Source: `allow_methods=["*"]` in the CORSMiddleware configuration. -/
def allow_methods : List String := ["*"]

/-- Source: `allow_headers=["*"]` in the CORSMiddleware configuration. -/
def allow_headers : List String := ["*"]

/-- Modelled from the spec: the framework's CORS enforcement (Starlette's
`CORSMiddleware`, not part of this repository's sources) echoes an
`Access-Control-Allow-Origin` header exactly for origins on the
configured allow-list (no wildcard is configured, and credentials are
allowed), and echoes nothing for any other origin, which rejects the
cross-origin request. -/
def corsAllowOriginHeader (origin : String) : Option String :=
  if origin ∈ origins then some origin else none

/-- Source: the pydantic model `ChatInput` with the single required field
`user_message: str`. -/
structure ChatInput where
  user_message : String

/-- FastAPI/pydantic validation of the `POST /chat` request body against
`ChatInput`: the body must be a JSON object whose `user_message` field is
present and a string; otherwise validation fails with an error message
(FastAPI then answers 422). -/
def parseChatInput : JValue → Except String ChatInput
  | .jobj fields =>
    match fields.lookup "user_message" with
    | some (.jstr s) => Except.ok ⟨s⟩
    | some _ => Except.error "Input should be a valid string"
    | none => Except.error "Field required"
  | _ => Except.error "Input should be a valid dictionary or object to extract fields from"

/-- The message `requests.Response.raise_for_status` puts into the
`HTTPError` it raises for a status code in [400, 600). -/
def raiseForStatusText (status : Nat) (reason url : String) : String :=
  if status < 500 then
    toString status ++ " Client Error: " ++ reason ++ " for url: " ++ url
  else
    toString status ++ " Server Error: " ++ reason ++ " for url: " ++ url

/-- Source: `call_ollama(prompt, system_message="You are a helpful assistant.")`.
Builds the payload, issues the one outbound POST with `timeout=60` and
handles the outcome inside `try/except`:
- a `requests.exceptions.RequestException` (transport failure, or the
  `HTTPError` from `raise_for_status` on a status in [400, 600), which is
  a subclass) becomes `HTTPException(503, "Ollama service unavailable: " + str(e))`;
- a `KeyError` from `result["message"]["content"]` becomes
  `HTTPException(502, "Unexpected response format from Ollama: " + str(e))`;
- any other exception (e.g. `TypeError`) propagates unchanged.
Returns the list of outbound requests issued together with the result. -/
def call_ollama (env : List (String × String)) (upstream : Upstream)
    (prompt : String) (system_message : String := "You are a helpful assistant.") :
    List HttpRequest × Except PyExc JValue :=
  let url := OLLAMA_URL env ++ "/api/chat"
  let payload : JValue :=
    .jobj [("model", .jstr (OLLAMA_MODEL env)),
           ("messages", .jarr
             [.jobj [("role", .jstr "system"), ("content", .jstr system_message)],
              .jobj [("role", .jstr "user"), ("content", .jstr prompt)]]),
           ("stream", .jbool false)]
  let req : HttpRequest := { url := url, jsonBody := payload, timeout := 60 }
  let result : Except PyExc JValue :=
    match upstream with
    | .transportFailure errText =>
      Except.error (.httpExc 503 ("Ollama service unavailable: " ++ errText))
    | .response status reason body =>
      if 400 ≤ status ∧ status < 600 then
        Except.error (.httpExc 503
          ("Ollama service unavailable: " ++ raiseForStatusText status reason url))
      else
        match body.getItem "message" with
        | Except.error (.keyError k) =>
          Except.error (.httpExc 502
            ("Unexpected response format from Ollama: " ++ "'" ++ k ++ "'"))
        | Except.error e => Except.error e
        | Except.ok msg =>
          match msg.getItem "content" with
          | Except.error (.keyError k) =>
            Except.error (.httpExc 502
              ("Unexpected response format from Ollama: " ++ "'" ++ k ++ "'"))
          | Except.error e => Except.error e
          | Except.ok content => Except.ok content
  ([req], result)

/-- The JSON response FastAPI produces for a raised `HTTPException`. -/
def httpExcResponse (status : Nat) (detail : String) : Response :=
  { status := status, body := .jobj [("detail", .jstr detail)] }

/-- Source: the `POST /chat` handler `chat_with_ai(input_data)`.
Awaits `call_ollama(input_data.user_message)`; on success returns
`{"bot_response": bot_response}` with status 200; the blanket
`except Exception as e` catches any exception — including the
`HTTPException`s raised inside `call_ollama` — and re-raises
`HTTPException(status_code=500, detail=str(e))`. -/
def chat_with_ai (env : List (String × String)) (upstream : Upstream)
    (input_data : ChatInput) : List HttpRequest × Response :=
  let r := call_ollama env upstream input_data.user_message
  match r.2 with
  | Except.ok v => (r.1, { status := 200, body := .jobj [("bot_response", v)] })
  | Except.error e => (r.1, httpExcResponse 500 e.toStr)

/-- Source: the `GET /` handler `health_check()`. -/
def health_check (env : List (String × String)) : Response :=
  { status := 200,
    body := .jobj [("status", .jstr "ok"),
                   ("model", .jstr (OLLAMA_MODEL env)),
                   ("ollama_url", .jstr (OLLAMA_URL env))] }

/-- The full `POST /chat` route as seen by a client: FastAPI first
validates the body against `ChatInput` (a failure yields a 422 validation
response and no outbound call), then runs `chat_with_ai`. -/
def chat_endpoint (env : List (String × String)) (upstream : Upstream)
    (body : JValue) : List HttpRequest × Response :=
  match parseChatInput body with
  | Except.error msg => ([], { status := 422, body := .jobj [("detail", .jstr msg)] })
  | Except.ok input_data => chat_with_ai env upstream input_data

/-! Helper lemmas shared by several verification theorems. -/

/-- The requests issued by `chat_with_ai` are exactly those issued by the
`call_ollama` call it makes. -/
theorem chat_with_ai_fst (env : List (String × String)) (upstream : Upstream)
    (input_data : ChatInput) :
    (chat_with_ai env upstream input_data).1 =
    (call_ollama env upstream input_data.user_message).1 := by
  unfold chat_with_ai
  rcases h : (call_ollama env upstream input_data.user_message).2 with v | e <;> simp [h]

/-- On a valid body `{"user_message": s}`, the `/chat` route issues exactly
one outbound POST: to `<OLLAMA_URL>/api/chat`, with the payload built from
the configured model, the fixed system prompt and the user message, and a
timeout of 60 seconds — whatever the upstream then does. -/
theorem chat_endpoint_fst (env : List (String × String)) (upstream : Upstream)
    (s : String) :
    (chat_endpoint env upstream (.jobj [("user_message", .jstr s)])).1 =
    [{ url := OLLAMA_URL env ++ "/api/chat",
       jsonBody := .jobj [("model", .jstr (OLLAMA_MODEL env)),
         ("messages", .jarr
           [.jobj [("role", .jstr "system"),
                   ("content", .jstr "You are a helpful assistant.")],
            .jobj [("role", .jstr "user"), ("content", .jstr s)]]),
         ("stream", .jbool false)],
       timeout := 60 }] := by
  have h : chat_endpoint env upstream (.jobj [("user_message", .jstr s)]) =
      chat_with_ai env upstream ⟨s⟩ := rfl
  rw [h, chat_with_ai_fst]
  rfl

/-- On an upstream response whose status is in [400, 600),
`raise_for_status` raises, so `call_ollama` produces the 503
`HTTPException` with the transport error text. -/
theorem call_ollama_snd_error_status (env : List (String × String))
    (status : Nat) (reason : String) (body : JValue) (s : String)
    (h1 : 400 ≤ status) (h2 : status < 600) :
    (call_ollama env (.response status reason body) s).2 =
    Except.error (.httpExc 503 ("Ollama service unavailable: " ++
      raiseForStatusText status reason (OLLAMA_URL env ++ "/api/chat"))) := by
  simp only [call_ollama]
  rw [if_pos ⟨h1, h2⟩]

/-! Verification of the claims. -/

/-- C1 (counterexample): the claim as stated is false. With the upstream
connection refused, the `/chat` endpoint responds with status 500, not
503: the 503 `HTTPException` raised inside `call_ollama` is an
`Exception`, so the blanket `except Exception` in `chat_with_ai` catches
it and re-raises `HTTPException(500, str(e))`. -/
theorem c1_original_counterexample :
    (chat_endpoint [] (.transportFailure "Connection refused")
      (.jobj [("user_message", .jstr "hi")])).2.status = 500 ∧ (500 : Nat) ≠ 503 :=
  ⟨rfl, by decide⟩

/-- C1 (amended): when the outbound call fails at transport level
(connection refused, unreachable, timeout), or the upstream's final
response has a 4xx/5xx status (the only non-2xx statuses on which
`raise_for_status` raises), `/chat` responds with HTTP status 500 and a
detail equal to the string form of the internally raised 503 exception:
"503: Ollama service unavailable: " followed by the underlying error
text — so the detail contains the word "unavailable" and the underlying
transport error text, but the outer status is 500, not 503. -/
theorem c1_unavailable_wrapped_to_500 :
    (∀ (env : List (String × String)) (s errText : String),
      (chat_endpoint env (.transportFailure errText)
        (.jobj [("user_message", .jstr s)])).2 =
      httpExcResponse 500 ("503: " ++ ("Ollama service unavailable: " ++ errText)))
    ∧
    (∀ (env : List (String × String)) (s reason : String) (status : Nat) (body : JValue),
      400 ≤ status → status < 600 →
      (chat_endpoint env (.response status reason body)
        (.jobj [("user_message", .jstr s)])).2 =
      httpExcResponse 500 ("503: " ++ ("Ollama service unavailable: " ++
        raiseForStatusText status reason (OLLAMA_URL env ++ "/api/chat")))) := by
  constructor
  · intro env s errText
    rfl
  · intro env s reason status body h1 h2
    show (chat_with_ai env (.response status reason body) ⟨s⟩).2 = _
    simp only [chat_with_ai]
    rw [call_ollama_snd_error_status env status reason body s h1 h2]
    rfl

/-- C1 (witness for the amended theorem): both parts instantiated at
concrete inputs, hypotheses discharged. -/
theorem c1_unavailable_wrapped_to_500_witness :
    (chat_endpoint [] (.transportFailure "Connection refused")
      (.jobj [("user_message", .jstr "hi")])).2 =
      httpExcResponse 500 ("503: " ++ ("Ollama service unavailable: " ++ "Connection refused"))
    ∧
    (chat_endpoint [] (.response 500 "Internal Server Error" .jnull)
      (.jobj [("user_message", .jstr "hi")])).2 =
      httpExcResponse 500 ("503: " ++ ("Ollama service unavailable: " ++
        raiseForStatusText 500 "Internal Server Error" (OLLAMA_URL [] ++ "/api/chat"))) :=
  ⟨c1_unavailable_wrapped_to_500.1 [] "hi" "Connection refused",
   c1_unavailable_wrapped_to_500.2 [] "hi" "Internal Server Error" 500 .jnull
     (by decide) (by decide)⟩

/-- C2 (counterexample): the claim as stated is false. With the upstream
answering 200 with body `{"foo": "bar"}` (no `message` field), the `/chat`
endpoint responds with status 500, not 502: the 502 `HTTPException`
raised inside `call_ollama` is caught by the blanket `except Exception`
in `chat_with_ai` and re-raised as a 500. -/
theorem c2_original_counterexample :
    (chat_endpoint [] (.response 200 "OK" (.jobj [("foo", .jstr "bar")]))
      (.jobj [("user_message", .jstr "hi")])).2.status = 500 ∧ (500 : Nat) ≠ 502 :=
  ⟨rfl, by decide⟩

/-- C2 (amended): when the upstream responds 2xx with a JSON object body
that lacks the `message` field, or whose `message` field is an object
lacking `content`, `/chat` responds with HTTP status 500 and a detail
equal to the string form of the internally raised 502 exception —
"502: Unexpected response format from Ollama: " followed by the missing
key in quotes — so the detail names the missing field, but the outer
status is 500, not 502. -/
theorem c2_malformed_wrapped_to_500 :
    (∀ (env : List (String × String)) (s reason : String) (status : Nat)
       (fields : List (String × JValue)),
      200 ≤ status → status < 300 →
      fields.lookup "message" = none →
      (chat_endpoint env (.response status reason (.jobj fields))
        (.jobj [("user_message", .jstr s)])).2 =
      httpExcResponse 500 "502: Unexpected response format from Ollama: 'message'")
    ∧
    (∀ (env : List (String × String)) (s reason : String) (status : Nat)
       (fields mfields : List (String × JValue)),
      200 ≤ status → status < 300 →
      fields.lookup "message" = some (.jobj mfields) →
      mfields.lookup "content" = none →
      (chat_endpoint env (.response status reason (.jobj fields))
        (.jobj [("user_message", .jstr s)])).2 =
      httpExcResponse 500 "502: Unexpected response format from Ollama: 'content'") := by
  constructor
  · intro env s reason status fields h1 h2 hm
    have hneg : ¬(400 ≤ status ∧ status < 600) := by omega
    show (chat_with_ai env (.response status reason (.jobj fields)) ⟨s⟩).2 = _
    simp only [chat_with_ai, call_ollama]
    rw [if_neg hneg]
    simp only [JValue.getItem, hm]
    rfl
  · intro env s reason status fields mfields h1 h2 hm hc
    have hneg : ¬(400 ≤ status ∧ status < 600) := by omega
    show (chat_with_ai env (.response status reason (.jobj fields)) ⟨s⟩).2 = _
    simp only [chat_with_ai, call_ollama]
    rw [if_neg hneg]
    simp only [JValue.getItem, hm, hc]
    rfl

/-- C2 (witness for the amended theorem): both parts instantiated at
concrete inputs, hypotheses discharged. -/
theorem c2_malformed_wrapped_to_500_witness :
    (chat_endpoint [] (.response 200 "OK" (.jobj [("foo", .jstr "bar")]))
      (.jobj [("user_message", .jstr "hi")])).2 =
      httpExcResponse 500 "502: Unexpected response format from Ollama: 'message'"
    ∧
    (chat_endpoint [] (.response 200 "OK"
        (.jobj [("message", .jobj [("role", .jstr "assistant")])]))
      (.jobj [("user_message", .jstr "hi")])).2 =
      httpExcResponse 500 "502: Unexpected response format from Ollama: 'content'" :=
  ⟨c2_malformed_wrapped_to_500.1 [] "hi" "OK" 200 [("foo", .jstr "bar")]
     (by decide) (by decide) rfl,
   c2_malformed_wrapped_to_500.2 [] "hi" "OK" 200
     [("message", .jobj [("role", .jstr "assistant")])] [("role", .jstr "assistant")]
     (by decide) (by decide) rfl rfl⟩

/-- C3: any `HTTPException` produced by `call_ollama` (503 on transport
failure or HTTP error status, 502 on a missing field) is caught by the
blanket `except Exception` in `chat_with_ai` and re-raised as a new
`HTTPException` with status 500 whose detail is the Python string form of
the original exception, `"<status>: <detail>"`; consequently the `/chat`
route only ever responds with status 200, 500 or the framework's 422
validation error — never 502 or 503. -/
theorem c3_http_exceptions_rewrapped_to_500 :
    (∀ (env : List (String × String)) (upstream : Upstream)
       (input_data : ChatInput) (status : Nat) (detail : String),
      (call_ollama env upstream input_data.user_message).2 =
        Except.error (.httpExc status detail) →
      (chat_with_ai env upstream input_data).2 =
        httpExcResponse 500 (toString status ++ ": " ++ detail))
    ∧
    (∀ (env : List (String × String)) (upstream : Upstream) (body : JValue),
      (chat_endpoint env upstream body).2.status = 200 ∨
      (chat_endpoint env upstream body).2.status = 500 ∨
      (chat_endpoint env upstream body).2.status = 422) := by
  constructor
  · intro env upstream input_data status detail h
    simp only [chat_with_ai, h]
    rfl
  · intro env upstream body
    rcases hp : parseChatInput body with msg | input_data
    · right; right
      simp [chat_endpoint, hp]
    · rcases hc : (call_ollama env upstream input_data.user_message).2 with e | v
      · right; left
        simp [chat_endpoint, hp, chat_with_ai, hc, httpExcResponse]
      · left
        simp [chat_endpoint, hp, chat_with_ai, hc]

/-- C3 (witness): instantiated at a transport failure; the hypothesis on
`call_ollama`'s result is discharged by evaluation. -/
theorem c3_http_exceptions_rewrapped_to_500_witness :
    (chat_with_ai [] (.transportFailure "boom") ⟨"hi"⟩).2 =
      httpExcResponse 500 (toString 503 ++ ": " ++ "Ollama service unavailable: boom") :=
  c3_http_exceptions_rewrapped_to_500.1 [] (.transportFailure "boom") ⟨"hi"⟩ 503
    "Ollama service unavailable: boom" rfl

/-- C4: when the upstream responds 2xx with body
`{"message": {"content": c}}`, `/chat` responds 200 with body
`{"bot_response": c}`. -/
theorem c4_success_returns_bot_response :
    ∀ (env : List (String × String)) (s c reason : String) (status : Nat),
      200 ≤ status → status < 300 →
      (chat_endpoint env
        (.response status reason (.jobj [("message", .jobj [("content", .jstr c)])]))
        (.jobj [("user_message", .jstr s)])).2 =
      { status := 200, body := .jobj [("bot_response", .jstr c)] } := by
  intro env s c reason status h1 h2
  have hneg : ¬(400 ≤ status ∧ status < 600) := by omega
  show (chat_with_ai env
    (.response status reason (.jobj [("message", .jobj [("content", .jstr c)])])) ⟨s⟩).2 = _
  simp only [chat_with_ai, call_ollama]
  rw [if_neg hneg]
  rfl

/-- C4 (witness): the spec's own example — upstream replies
`{"message": {"content": "Hello!"}}`, the route answers 200 with
`{"bot_response": "Hello!"}`. -/
theorem c4_success_returns_bot_response_witness :
    (chat_endpoint []
      (.response 200 "OK" (.jobj [("message", .jobj [("content", .jstr "Hello!")])]))
      (.jobj [("user_message", .jstr "hi")])).2 =
    { status := 200, body := .jobj [("bot_response", .jstr "Hello!")] } :=
  c4_success_returns_bot_response [] "hi" "Hello!" "OK" 200 (by decide) (by decide)

/-- C5: for every string `s` (including `""`), a `/chat` invocation with
body `{"user_message": s}` issues exactly one outbound POST, to
`<OLLAMA_URL>/api/chat`, whose JSON payload is the configured model, the
two-message list (fixed system prompt, then the user turn whose content
is exactly `s`) and `"stream": false` — whatever the upstream then does,
with no retries (the request list is a singleton). -/
theorem c5_exactly_one_outbound_call :
    ∀ (env : List (String × String)) (upstream : Upstream) (s : String),
      (chat_endpoint env upstream (.jobj [("user_message", .jstr s)])).1 =
      [{ url := OLLAMA_URL env ++ "/api/chat",
         jsonBody := .jobj [("model", .jstr (OLLAMA_MODEL env)),
           ("messages", .jarr
             [.jobj [("role", .jstr "system"),
                     ("content", .jstr "You are a helpful assistant.")],
              .jobj [("role", .jstr "user"), ("content", .jstr s)]]),
           ("stream", .jbool false)],
         timeout := 60 }] := by
  intro env upstream s
  exact chat_endpoint_fst env upstream s

/-- C6: `health_check` is a pure, total function of the process
configuration: every invocation returns status 200 with the record
`{"status": "ok", "model": <configured model>, "ollama_url": <configured url>}`,
so repeated calls agree and none can fail. -/
theorem c6_health_check_constant :
    ∀ env : List (String × String),
      health_check env =
      { status := 200,
        body := .jobj [("status", .jstr "ok"),
                       ("model", .jstr (OLLAMA_MODEL env)),
                       ("ollama_url", .jstr (OLLAMA_URL env))] } := by
  intro env
  rfl

/-- C7: with an empty environment the defaults are
`OLLAMA_URL = "http://localhost:11434"` and `OLLAMA_MODEL = "qwen2.5"`;
and whenever the environment sets `OLLAMA_MODEL` to `"llama3"`, the
health check reports `"model": "llama3"` and the one outbound payload's
`model` field equals `"llama3"`. -/
theorem c7_config_defaults_and_override :
    OLLAMA_URL [] = "http://localhost:11434" ∧
    OLLAMA_MODEL [] = "qwen2.5" ∧
    ∀ env : List (String × String),
      env.lookup "OLLAMA_MODEL" = some "llama3" →
      OLLAMA_MODEL env = "llama3" ∧
      (health_check env).body =
        .jobj [("status", .jstr "ok"), ("model", .jstr "llama3"),
               ("ollama_url", .jstr (OLLAMA_URL env))] ∧
      ∀ (upstream : Upstream) (s : String),
        ((chat_endpoint env upstream (.jobj [("user_message", .jstr s)])).1).map
          (fun req => req.jsonBody.getItem "model") = [Except.ok (.jstr "llama3")] := by
  refine ⟨rfl, rfl, ?_⟩
  intro env h
  have hm : OLLAMA_MODEL env = "llama3" := by simp [OLLAMA_MODEL, getenv, h]
  refine ⟨hm, ?_, ?_⟩
  · simp [health_check, hm]
  · intro upstream s
    rw [chat_endpoint_fst]
    simp [hm, JValue.getItem]

/-- C7 (witness): with `OLLAMA_MODEL=llama3` in the environment, the
model resolves to `"llama3"` and the outbound payload's `model` field is
`"llama3"`. -/
theorem c7_config_defaults_and_override_witness :
    OLLAMA_MODEL [("OLLAMA_MODEL", "llama3")] = "llama3" ∧
    ((chat_endpoint [("OLLAMA_MODEL", "llama3")] (.transportFailure "x")
        (.jobj [("user_message", .jstr "hi")])).1).map
      (fun req => req.jsonBody.getItem "model") = [Except.ok (.jstr "llama3")] :=
  ⟨(c7_config_defaults_and_override.2.2 [("OLLAMA_MODEL", "llama3")] rfl).1,
   (c7_config_defaults_and_override.2.2 [("OLLAMA_MODEL", "llama3")] rfl).2.2
     (.transportFailure "x") "hi"⟩

/-- C8: every outbound POST issued by the chat handler — there is exactly
one per invocation — carries a timeout of 60 seconds, so (under the
`requests` library's semantics) the call completes when the upstream
responds or when 60 seconds elapse, whichever comes first. -/
theorem c8_outbound_timeout_60 :
    ∀ (env : List (String × String)) (upstream : Upstream) (input_data : ChatInput),
      ((chat_with_ai env upstream input_data).1).map (fun req => req.timeout) = [60] := by
  intro env upstream input_data
  rw [chat_with_ai_fst]
  rfl

/-- C9: the CORS allow-list is exactly the two origins
`http://localhost:5173` and `http://localhost:3000`, with all methods and
headers permitted and credentials allowed; the `Access-Control-Allow-Origin`
header is echoed exactly for allow-listed origins and withheld for every
other origin, which rejects the cross-origin request. -/
theorem c9_cors_policy :
    origins = ["http://localhost:5173", "http://localhost:3000"] ∧
    allow_credentials = true ∧
    allow_methods = ["*"] ∧
    allow_headers = ["*"] ∧
    (∀ origin : String, corsAllowOriginHeader origin = none ↔ origin ∉ origins) ∧
    (∀ origin : String, origin ∈ origins → corsAllowOriginHeader origin = some origin) := by
  refine ⟨rfl, rfl, rfl, rfl, ?_, ?_⟩
  · intro origin
    by_cases h : origin ∈ origins <;> simp [corsAllowOriginHeader, h]
  · intro origin h
    simp [corsAllowOriginHeader, h]

/-- C9 (witness): an allow-listed origin is echoed; a foreign origin gets
no `Access-Control-Allow-Origin` header. -/
theorem c9_cors_policy_witness :
    corsAllowOriginHeader "http://localhost:5173" = some "http://localhost:5173" ∧
    corsAllowOriginHeader "http://evil.example" = none :=
  ⟨c9_cors_policy.2.2.2.2.2 "http://localhost:5173" (by decide),
   (c9_cors_policy.2.2.2.2.1 "http://evil.example").mpr (by decide)⟩

/-- C10: a request body (JSON object) without a `user_message` field is
rejected by validation with a 422 and no outbound call is made; the empty
string is accepted — `{"user_message": ""}` validates to `⟨""⟩` and is
forwarded as the user-turn content of the one outbound payload. -/
theorem c10_user_message_required_empty_ok :
    (∀ (env : List (String × String)) (upstream : Upstream)
       (fields : List (String × JValue)),
      fields.lookup "user_message" = none →
      chat_endpoint env upstream (.jobj fields) =
        ([], { status := 422, body := .jobj [("detail", .jstr "Field required")] }))
    ∧
    parseChatInput (.jobj [("user_message", .jstr "")]) = Except.ok ⟨""⟩
    ∧
    (∀ (env : List (String × String)) (upstream : Upstream),
      ((chat_endpoint env upstream (.jobj [("user_message", .jstr "")])).1).map
        (fun req => req.jsonBody) =
      [.jobj [("model", .jstr (OLLAMA_MODEL env)),
              ("messages", .jarr
                [.jobj [("role", .jstr "system"),
                        ("content", .jstr "You are a helpful assistant.")],
                 .jobj [("role", .jstr "user"), ("content", .jstr "")]]),
              ("stream", .jbool false)]]) := by
  refine ⟨?_, rfl, ?_⟩
  · intro env upstream fields h
    simp only [chat_endpoint, parseChatInput, h]
  · intro env upstream
    rw [chat_endpoint_fst]
    rfl

/-- C10 (witness): a body without `user_message` is answered 422 with no
outbound request. -/
theorem c10_user_message_required_empty_ok_witness :
    chat_endpoint [] (.transportFailure "x") (.jobj [("foo", .jstr "bar")]) =
      ([], { status := 422, body := .jobj [("detail", .jstr "Field required")] }) :=
  c10_user_message_required_empty_ok.1 [] (.transportFailure "x") [("foo", .jstr "bar")] rfl

end ChatbotDemo
